import Mathlib

/-!
Verification of the `indexless-query-benchmarks` repository.

The TypeScript sources are shallowly embedded: JavaScript numbers are
modelled as exact rationals (`ℚ`); the only floating-point constant whose
rounding could matter, the `0.95` in `calculateStats`, is modelled as the
exact `19/20` (for every feasible array length `n` the double computation
`Math.floor(n * 0.95)` agrees with `⌊19 * n / 20⌋`, since the error of the
double product stays below the distance to the nearest integer).  Fallible
external calls (database queries, connections, generation scenarios) are
modelled as explicit `Except`-valued oracles, so a "thrown exception" is an
`Except.error` value and totality of the Lean functions witnesses that the
embedded code paths themselves do not throw.
-/

namespace Utils

/-- `Math.round` for JavaScript: nearest integer, ties toward +∞. -/
def jsRound (x : ℚ) : ℤ := ⌊x + 1 / 2⌋

/-- Truncation toward zero, as used by the JavaScript `%` operator. -/
def jsTrunc (x : ℚ) : ℤ := if 0 ≤ x then ⌊x⌋ else ⌈x⌉

/-- The JavaScript remainder operator `a % b` (sign follows the dividend). -/
def jsMod (a b : ℚ) : ℚ := a - b * jsTrunc (a / b)

/-- `Number.prototype.toFixed(2)`: nearest multiple of `1/100`, ties toward
+∞ (ECMA-262 picks the larger candidate), rendered with exactly two decimal
digits. -/
def toFixed2 (x : ℚ) : String :=
  let n : ℤ := ⌊x * 100 + 1 / 2⌋
  let m : ℕ := n.natAbs
  (if n < 0 then "-" else "")
    ++ toString (m / 100) ++ "."
    ++ (if m % 100 < 10 then "0" else "") ++ toString (m % 100)

/-- `formatDuration` from `src/utils.ts`: milliseconds to a human-readable
string.  `Math.floor` is exactly `⌊·⌋` on the reals, and `String(n)` on an
integer-valued number is `toString` of the integer. -/
def formatDuration (ms : ℚ) : String :=
  if ms < 1000 then toString (jsRound ms) ++ "ms"
  else if ms < 60000 then toFixed2 (ms / 1000) ++ "s"
  else if ms < 3600000 then
    toString ⌊ms / 60000⌋ ++ "m " ++ toString ⌊jsMod ms 60000 / 1000⌋ ++ "s"
  else
    toString ⌊ms / 3600000⌋ ++ "h " ++ toString ⌊jsMod ms 3600000 / 60000⌋
      ++ "m " ++ toString ⌊jsMod ms 60000 / 1000⌋ ++ "s"

/-- Result record of `calculateStats` in `src/utils.ts`. -/
structure Stats where
  min : ℚ
  max : ℚ
  avg : ℚ
  median : ℚ
  p95 : ℚ
deriving DecidableEq, Repr

/-- The ascending sort `[...values].sort((a, b) => a - b)` from
`calculateStats`.  On rationals the ascending reordering of a list is
unique, so the choice of sorting algorithm is immaterial; insertion sort is
used because it is structurally recursive. -/
def sortedOf (values : List ℚ) : List ℚ :=
  List.insertionSort (· ≤ ·) values

/-- `calculateStats` from `src/utils.ts`.  `sorted[i] ?? 0` is modelled by
`List.getD _ _ 0`; the function is total, so the empty input returns the
all-zero record rather than throwing. -/
def calculateStats (values : List ℚ) : Stats :=
  if values.length = 0 then
    { min := 0, max := 0, avg := 0, median := 0, p95 := 0 }
  else
    let sorted := sortedOf values
    let sum := sorted.foldl (· + ·) 0
    { min := sorted.getD 0 0
      max := sorted.getD (sorted.length - 1) 0
      avg := sum / (sorted.length : ℚ)
      median := sorted.getD (sorted.length / 2) 0
      p95 := sorted.getD (Nat.floor ((sorted.length : ℚ) * (19 / 20))) 0 }

end Utils

namespace Queries

/-- The per-engine SQL mapping of a catalog entry (`sql` field of
`QueryDefinition` in `src/types.ts`): each of the three engine keys is
optional. -/
structure SqlMap where
  postgres : Option String
  clickhouse : Option String
  trino : Option String
deriving DecidableEq, Repr, Inhabited

/-- The TypeScript index access `queryDef.sql[runner.name]`: any string other
than the three engine keys yields `undefined`. -/
def SqlMap.get (m : SqlMap) (engine : String) : Option String :=
  if engine = "postgres" then m.postgres
  else if engine = "clickhouse" then m.clickhouse
  else if engine = "trino" then m.trino
  else none

/-- A benchmark catalog entry (`QueryDefinition` in `src/types.ts`): name,
description and per-engine SQL.  The type declares no further fields. -/
structure QueryDefinition where
  name : String
  description : String
  sql : SqlMap
deriving DecidableEq, Repr, Inhabited

/-- The query catalog `QUERIES` from `src/queries.ts` (eight entries). -/
def QUERIES : List QueryDefinition := [
  { name := "full-count"
    description := "Count all rows in the table"
    sql := { postgres := some "SELECT COUNT(*) FROM samples"
             clickhouse := some "SELECT COUNT(*) FROM samples"
             trino := some "SELECT COUNT(*) FROM iceberg.benchmarks.samples" } },
  { name := "filter-by-status"
    description := "Filter rows by status column"
    sql := { postgres := some "SELECT COUNT(*) FROM samples WHERE status = \x27active\x27"
             clickhouse := some "SELECT COUNT(*) FROM samples WHERE status = \x27active\x27"
             trino := some "SELECT COUNT(*) FROM iceberg.benchmarks.samples WHERE status = \x27active\x27" } },
  { name := "aggregate-by-status"
    description := "Group by status with aggregation"
    sql := { postgres := some "SELECT status, COUNT(*), AVG(value) FROM samples GROUP BY status"
             clickhouse := some "SELECT status, COUNT(*), AVG(value) FROM samples GROUP BY status"
             trino := some "SELECT status, COUNT(*), AVG(value) FROM iceberg.benchmarks.samples GROUP BY status" } },
  { name := "range-scan"
    description := "Range scan on value column"
    sql := { postgres := some "SELECT COUNT(*) FROM samples WHERE value BETWEEN 100 AND 500"
             clickhouse := some "SELECT COUNT(*) FROM samples WHERE value BETWEEN 100 AND 500"
             trino := some "SELECT COUNT(*) FROM iceberg.benchmarks.samples WHERE value BETWEEN 100 AND 500" } },
  { name := "top-n"
    description := "Get top N rows by value"
    sql := { postgres := some "SELECT * FROM samples ORDER BY value DESC LIMIT 100"
             clickhouse := some "SELECT * FROM samples ORDER BY value DESC LIMIT 100"
             trino := some "SELECT * FROM iceberg.benchmarks.samples ORDER BY value DESC LIMIT 100" } },
  { name := "string-like"
    description := "String pattern matching (full scan)"
    sql := { postgres := some "SELECT COUNT(*) FROM samples WHERE name LIKE \x27%abc%\x27"
             clickhouse := some "SELECT COUNT(*) FROM samples WHERE name LIKE \x27%abc%\x27"
             trino := some "SELECT COUNT(*) FROM iceberg.benchmarks.samples WHERE name LIKE \x27%abc%\x27" } },
  { name := "distinct-count"
    description := "Count distinct values"
    sql := { postgres := some "SELECT COUNT(DISTINCT status) FROM samples"
             clickhouse := some "SELECT COUNT(DISTINCT status) FROM samples"
             trino := some "SELECT COUNT(DISTINCT status) FROM iceberg.benchmarks.samples" } },
  { name := "percentile"
    description := "Calculate percentiles"
    sql := { postgres := some "SELECT PERCENTILE_CONT(0.5) WITHIN GROUP (ORDER BY value), PERCENTILE_CONT(0.95) WITHIN GROUP (ORDER BY value) FROM samples"
             clickhouse := some "SELECT quantile(0.5)(value), quantile(0.95)(value) FROM samples"
             trino := some "SELECT approx_percentile(value, 0.5), approx_percentile(value, 0.95) FROM iceberg.benchmarks.samples" } }]

end Queries

namespace Part003

/-- The extended query catalog `QUERIES` from the unnamed source
`src/unnamed/part_003` (thirteen entries: the eight of `src/queries.ts` plus
pagination, dedupe and two join queries).  Entries share the
`Queries.QueryDefinition` shape: no `category` or `expensive` field exists in
either catalog. -/
def QUERIES : List Queries.QueryDefinition :=
  Queries.QUERIES ++ [
  { name := "pagination-offset"
    description := "Deep pagination with OFFSET (unordered)"
    sql := { postgres := some "SELECT * FROM samples OFFSET 10000 LIMIT 10"
             clickhouse := some "SELECT * FROM samples LIMIT 10 OFFSET 10000"
             trino := some "SELECT * FROM iceberg.benchmarks.samples OFFSET 10000 LIMIT 10" } },
  { name := "pagination-offset-ordered"
    description := "Deep pagination with OFFSET (ordered)"
    sql := { postgres := some "SELECT * FROM samples ORDER BY value OFFSET 10000 LIMIT 10"
             clickhouse := some "SELECT * FROM samples ORDER BY value LIMIT 10 OFFSET 10000"
             trino := some "SELECT * FROM iceberg.benchmarks.samples ORDER BY value OFFSET 10000 LIMIT 10" } },
  { name := "dedupe"
    description := "Select distinct rows by multiple columns"
    sql := { postgres := some "SELECT DISTINCT status, name FROM samples"
             clickhouse := some "SELECT DISTINCT status, name FROM samples"
             trino := some "SELECT DISTINCT status, name FROM iceberg.benchmarks.samples" } },
  { name := "filter-join"
    description := "Filter with JOIN on lookup table"
    sql := { postgres := some "SELECT COUNT(*) FROM samples s JOIN categories c ON s.category_id = c.id WHERE c.priority = \x27high\x27"
             clickhouse := some "SELECT COUNT(*) FROM samples s JOIN categories c ON s.category_id = c.id WHERE c.priority = \x27high\x27"
             trino := some "SELECT COUNT(*) FROM iceberg.benchmarks.samples s JOIN iceberg.benchmarks.categories c ON s.category_id = c.id WHERE c.priority = \x27high\x27" } },
  { name := "aggregate-join"
    description := "Aggregate with JOIN on lookup table"
    sql := { postgres := some "SELECT c.priority, COUNT(*), AVG(s.value) FROM samples s JOIN categories c ON s.category_id = c.id GROUP BY c.priority"
             clickhouse := some "SELECT c.priority, COUNT(*), AVG(s.value) FROM samples s JOIN categories c ON s.category_id = c.id GROUP BY c.priority"
             trino := some "SELECT c.priority, COUNT(*), AVG(s.value) FROM iceberg.benchmarks.samples s JOIN iceberg.benchmarks.categories c ON s.category_id = c.id GROUP BY c.priority" } }]

end Part003

/-- Truthiness of an optional string, shared by JavaScript (`string |
undefined`) and Python (`str | None`): an absent value and the empty string
are falsy, every other string is truthy. -/
def truthyStr : Option String → Bool
  | none => false
  | some s => !(s == "")

namespace Runners

/-- A benchmark run record (`BenchmarkResult` in `src/types.ts`), one per
executed run. -/
structure BenchmarkResult where
  query : String
  database : String
  durationMs : ℚ
  rowsReturned : ℕ
  error : Option String
deriving DecidableEq, Repr

/-- `runBenchmark` from `src/runners.ts`.  The runner's `runQuery` is
modelled by the oracle `exec`, giving for each run index either the measured
`(durationMs, rowCount)` pair or the thrown error's message.  `if (!sql)
return []` skips both a missing and an empty SQL entry (JS truthiness).
Each caught exception becomes that run's record with the `error` field set;
the function is total, so no exception propagates and all `runs` iterations
produce a record. -/
def runBenchmark (runnerName : String) (exec : ℕ → Except String (ℚ × ℕ))
    (queryDef : Queries.QueryDefinition) (runs : ℕ) :
    List BenchmarkResult :=
  match queryDef.sql.get runnerName with
  | none => []
  | some sql =>
    if sql = "" then []
    else
      (List.range runs).map (fun i =>
        match exec i with
        | Except.ok dr =>
          { query := queryDef.name, database := runnerName,
            durationMs := dr.1, rowsReturned := dr.2, error := none }
        | Except.error e =>
          { query := queryDef.name, database := runnerName,
            durationMs := 0, rowsReturned := 0, error := some e })

end Runners

namespace Benchmark

/-- Observable outcome of the per-query loop body of `benchmarkDatabase` in
`src/benchmark.ts`: the query is skipped when `runBenchmark` returned no
records, an error report is printed when at least one record carries an
error, and otherwise a stats line is printed. -/
inductive QueryOutcome where
  | skipped
  | errorsReported (errorCount totalRuns : ℕ) (messages : List String)
  | statsPrinted (stats : Utils.Stats) (line : String)
deriving DecidableEq, Repr

/-- The printed stats line
`min=..., avg=..., p95=..., max=...` of `benchmarkDatabase`. -/
def statsLineText (s : Utils.Stats) : String :=
  "  Results: min=" ++ Utils.formatDuration s.min
    ++ ", avg=" ++ Utils.formatDuration s.avg
    ++ ", p95=" ++ Utils.formatDuration s.p95
    ++ ", max=" ++ Utils.formatDuration s.max

/-- The per-query loop body of `benchmarkDatabase` (`src/benchmark.ts`,
identical in the plain and the report-generating variant), applied to the
records returned by `runBenchmark`: empty list ⇒ skip; `results.filter((r)
=> r.error)` non-empty ⇒ error report (count, total, each record's message,
`e.error ?? "Unknown error"`) and no stats; otherwise stats over
`results.map((r) => r.durationMs)`. -/
def processQueryResults (results : List Runners.BenchmarkResult) :
    QueryOutcome :=
  if results.isEmpty then QueryOutcome.skipped
  else
    let errors := results.filter (fun r => truthyStr r.error)
    if errors.isEmpty then
      let stats := Utils.calculateStats (results.map (fun r => r.durationMs))
      QueryOutcome.statsPrinted stats (statsLineText stats)
    else
      QueryOutcome.errorsReported errors.length results.length
        (errors.map (fun r => r.error.getD "Unknown error"))

/-- A per-query summary row of the report (`QueryResult` in
`src/benchmark.ts`, report variant). -/
structure QueryResult where
  query : String
  description : String
  minMs : ℚ
  avgMs : ℚ
  p95Ms : ℚ
  maxMs : ℚ
deriving DecidableEq, Repr

/-- One engine's section of the report (`DatabaseResult` in
`src/benchmark.ts`). -/
structure DatabaseResult where
  database : String
  results : List QueryResult
deriving DecidableEq, Repr

/-- The accumulated report (`BenchmarkReport` in `src/benchmark.ts`). -/
structure BenchmarkReport where
  timestamp : String
  warmupRuns : ℕ
  benchmarkRuns : ℕ
  databases : List DatabaseResult
deriving DecidableEq, Repr

/-- Oracle for one engine's pass: the outcome of `runner.connect()` and, per
(query index, run index), the outcome of `runner.runQuery`. -/
structure EngineRun where
  connect : Except String Unit
  exec : ℕ → ℕ → Except String (ℚ × ℕ)

/-- `benchmarkDatabase` from `src/benchmark.ts` (report variant).  The
`try`/`catch` wraps the whole pass: a failed `connect` (or a failure of
`disconnect`, which cannot affect the already-accumulated list) is caught
and the accumulated `dbResult` is returned, so the function always returns a
`DatabaseResult` whose `database` is the runner's name.  A query result row
is pushed only in the stats branch of the loop body.  Warmup executions are
discarded by the source and have no observable effect on the result, so they
are not modelled. -/
def benchmarkDatabase (runnerName : String) (oracle : EngineRun)
    (queries : List Queries.QueryDefinition) (runs : ℕ) : DatabaseResult :=
  match oracle.connect with
  | Except.error _ => { database := runnerName, results := [] }
  | Except.ok _ =>
    { database := runnerName
      results := queries.enum.filterMap (fun iq =>
        match processQueryResults
            (Runners.runBenchmark runnerName (oracle.exec iq.1) iq.2 runs) with
        | QueryOutcome.statsPrinted stats _ =>
          some { query := iq.2.name, description := iq.2.description,
                 minMs := stats.min, avgMs := stats.avg,
                 p95Ms := stats.p95, maxMs := stats.max }
        | _ => none) }

/-- The `main` of `src/benchmark.ts` (report variant): one
`benchmarkDatabase` call per selected engine, pushed in the fixed order
postgres, clickhouse, trino. -/
def mainDatabases (runPostgres runClickHouse runTrino : Bool)
    (pg ch tr : EngineRun) (queries : List Queries.QueryDefinition)
    (runs : ℕ) : List DatabaseResult :=
  (if runPostgres then [benchmarkDatabase "postgres" pg queries runs] else [])
    ++ (if runClickHouse then [benchmarkDatabase "clickhouse" ch queries runs] else [])
    ++ (if runTrino then [benchmarkDatabase "trino" tr queries runs] else [])

/-- `const queriesToRun = queryFilter ? QUERIES.filter((q) => q.name ===
queryFilter) : QUERIES` from `src/benchmark.ts`. -/
def queriesToRun (queryFilter : Option String) : List Queries.QueryDefinition :=
  match queryFilter with
  | some f => Queries.QUERIES.filter (fun q => q.name == f)
  | none => Queries.QUERIES

/-- The lines printed to stderr when a `-q` filter matches nothing: the
error message followed by one line per catalog entry. -/
def unknownQueryErrorLines (f : String) : List String :=
  ("Query \"" ++ f ++ "\" not found. Available queries:")
    :: Queries.QUERIES.map (fun q => "  - " ++ q.name ++ ": " ++ q.description)

/-- The `if (queryFilter && queriesToRun.length === 0) { ...; process.exit(1) }`
guard of `src/benchmark.ts`: `some (code, lines)` when the process exits
with the non-zero code `1` after printing `lines`, `none` when execution
continues. -/
def filterExit (queryFilter : Option String) : Option (ℕ × List String) :=
  match queryFilter with
  | some f =>
    if (queriesToRun (some f)).isEmpty then some (1, unknownQueryErrorLines f)
    else none
  | none => none

/-- `report.databases[0]?.results.map((r) => r.query) ?? []` from
`generateMarkdown`: the summary table's row keys come from the first
reported engine only. -/
def summaryQueries (dbs : List DatabaseResult) : List String :=
  (dbs.head?.map (fun d => d.results.map (fun r => r.query))).getD []

/-- One cell of the summary table: the engine's average formatted by
`formatDuration`, or the placeholder `-` when `db.results.find(...)` is
`undefined`. -/
def summaryCell (db : DatabaseResult) (q : String) : String :=
  match db.results.find? (fun r => r.query == q) with
  | some r => Utils.formatDuration r.avgMs
  | none => "-"

/-- One row of the summary table:
`| ${query} | ${cells.join(" | ")} |`. -/
def summaryRowLine (dbs : List DatabaseResult) (q : String) : String :=
  "| " ++ q ++ " | "
    ++ String.intercalate " | " (dbs.map (fun db => summaryCell db q)) ++ " |"

/-- One row of an engine's detailed table in `generateMarkdown`. -/
def detailRowLine (r : QueryResult) : String :=
  "| " ++ r.query ++ " | " ++ Utils.formatDuration r.minMs ++ " | "
    ++ Utils.formatDuration r.avgMs ++ " | " ++ Utils.formatDuration r.p95Ms
    ++ " | " ++ Utils.formatDuration r.maxMs ++ " |"

/-- The lines accumulated by `generateMarkdown` in `src/benchmark.ts`, in
push order; the function is total, so a report with heterogeneous per-engine
coverage renders without crashing. -/
def markdownLines (report : BenchmarkReport) : List String :=
  ["# Benchmark Report", "",
   "**Date:** " ++ report.timestamp,
   "**Warmup Runs:** " ++ toString report.warmupRuns,
   "**Benchmark Runs:** " ++ toString report.benchmarkRuns,
   "", "## Results", ""]
  ++ ["| Query | "
        ++ String.intercalate " | " (report.databases.map (fun d => d.database))
        ++ " |",
      "|-------|"
        ++ String.intercalate "|" (report.databases.map (fun _ => "------:"))
        ++ "|"]
  ++ (summaryQueries report.databases).map (summaryRowLine report.databases)
  ++ ["", "## Detailed Results", ""]
  ++ report.databases.flatMap (fun db =>
      ["### " ++ db.database, "",
       "| Query | Min | Avg | P95 | Max |",
       "|-------|----:|----:|----:|----:|"]
      ++ db.results.map detailRowLine ++ [""])

/-- `generateMarkdown`: the pushed lines joined with newlines. -/
def generateMarkdown (report : BenchmarkReport) : String :=
  String.intercalate "\n" (markdownLines report)

end Benchmark

namespace Generate

/-- Oracle for one engine in the data-generation CLI (`src/generate.ts`):
the outcome of `generator.connect()` and of `generator.runScenario(...)`
(total rows inserted and duration in ms). -/
structure GenEngineRun where
  connect : Except String Unit
  scenario : Except String (ℕ × ℚ)

/-- `generateForDatabase` from `src/generate.ts`.  The body is `try {
connect; runScenario; log } finally { disconnect }`: there is no `catch`, so
the first component is the propagated outcome and the second component
records that `disconnect` was invoked (the `finally` runs on every path;
`disconnect` on a never-connected generator is safe). -/
def generateForDatabase (g : GenEngineRun) : Except String (ℕ × ℚ) × Bool :=
  match g.connect with
  | Except.error e => (Except.error e, true)
  | Except.ok _ => (g.scenario, true)

/-- The `for (const db of dbsToRun) { await generateForDatabase(db) }` loop
of `main` in `src/generate.ts`: returns the scenario results of the engines
that completed and, when an engine's generation threw, the error that
escaped the loop (aborting the remaining engines). -/
def mainGenerate : List GenEngineRun → List (ℕ × ℚ) × Option String
  | [] => ([], none)
  | g :: rest =>
    match (generateForDatabase g).1 with
    | Except.error e => ([], some e)
    | Except.ok res =>
      let r := mainGenerate rest
      (res :: r.1, r.2)

/-- `main().catch((err) => { console.error(...); process.exit(1) })`: the
process exit code of the generation CLI. -/
def generateExitCode (engines : List GenEngineRun) : ℕ :=
  match (mainGenerate engines).2 with
  | some _ => 1
  | none => 0

end Generate

namespace Optuna

/-!
Modelled from the spec: the optimizer Python sources (`optimizer.py`,
`common.py`) are not under `src/`; `config_to_key` and `find_cached_result`
are modelled from the reference implementation quoted in
`src/optuna/OPTIMIZER_GUIDE.md` and the spec's description of the result
cache.  A Python dict is modelled as an association list in which a later
binding overrides an earlier one (exactly the semantics of `{**infra,
**config}`), with values restricted to integers; the canonical key-sorted
JSON serialization `json.dumps(combined, sort_keys=True)` is modelled as
the key-sorted deduplicated association list itself (JSON rendering is
injective on those, so the string and the list identify the same keys).
-/

/-- A Python dict with string keys and integer values. -/
abbrev Dict := List (String × Int)

/-- Dict lookup with the construction semantics of `{**infra, **config}`:
the last binding of a key wins. -/
def pyDictGet (d : Dict) (k : String) : Option Int :=
  d.foldl (fun acc p => if p.1 = k then some p.2 else acc) none

/-- Code-point lexicographic comparison of character lists — the string
order used by Python's `sort_keys` (and by Lean's `String` order, whose
library implementation is however not kernel-reducible). -/
def lexLt : List Char → List Char → Bool
  | _, [] => false
  | [], _ :: _ => true
  | a :: as, b :: bs =>
    if a < b then true else if b < a then false else lexLt as bs

/-- Code-point lexicographic comparison of strings. -/
def strLt (a b : String) : Bool := lexLt a.data b.data

/-- Insert a binding into a key-sorted association list, overriding an
existing binding of the same key. -/
def dictInsert : Dict → String → Int → Dict
  | [], k, v => [(k, v)]
  | (k₁, v₁) :: rest, k, v =>
    if strLt k k₁ then (k, v) :: (k₁, v₁) :: rest
    else if k = k₁ then (k, v) :: rest
    else (k₁, v₁) :: dictInsert rest k v

/-- The canonical (key-sorted, duplicate-free, later-binding-wins) form of a
dict. -/
def dictCanon (d : Dict) : Dict :=
  d.foldl (fun acc p => dictInsert acc p.1 p.2) []

/-- `config_to_key(infra, config)`: the canonical key-sorted serialization
of `{**infra, **config}`. -/
def config_to_key (infra config : Dict) : Dict :=
  dictCanon (infra ++ config)

/-- A record of the optimizer result cache as consulted by
`find_cached_result`: `r.get("infra", {})`, `r.get("config", {})`,
`r.get("error")` and `r.get("throughput", 0)` (an absent throughput reads as
0). -/
structure CacheRecord where
  infra : Dict
  config : Dict
  error : Option String
  throughput : ℚ
deriving DecidableEq, Repr

/-- `find_cached_result(infra, config, cloud)`: scan the cache in order,
skip (`continue`) every record whose key differs, whose `error` is truthy or
whose stored throughput is ≤ 0, and return the first remaining record. -/
def find_cached_result (infra config : Dict) (cache : List CacheRecord) :
    Option CacheRecord :=
  let key := config_to_key infra config
  cache.find? (fun r =>
    config_to_key r.infra r.config == key
      && !(truthyStr r.error) && decide (0 < r.throughput))

end Optuna

/-- First-match lookup in an association list; on a canonical
(duplicate-free) dict this is the dict's lookup function. -/
def Optuna.assocFind : Optuna.Dict → String → Option Int
  | [], _ => none
  | (k₁, v) :: rest, k => if k = k₁ then some v else Optuna.assocFind rest k

/-! Concrete inputs used by witnesses and counterexamples. -/

/-- A `runQuery` oracle whose first run succeeds and whose later runs throw. -/
def Benchmark.execPartialFail : ℕ → Except String (ℚ × ℕ) :=
  fun i => if i = 0 then Except.ok (100, 1) else Except.error "connection reset"

/-- A `runQuery` oracle that always succeeds. -/
def Benchmark.execAllOk : ℕ → Except String (ℚ × ℕ) :=
  fun _ => Except.ok (250, 10)

/-- An engine whose `connect()` throws. -/
def Benchmark.engineDown : Benchmark.EngineRun :=
  { connect := Except.error "connect ECONNREFUSED"
    exec := fun _ _ => Except.ok (1, 1) }

/-- An engine whose pass fully succeeds. -/
def Benchmark.engineUp : Benchmark.EngineRun :=
  { connect := Except.ok ()
    exec := fun _ _ => Except.ok (250, 10) }

/-- Two successful measured runs of the `full-count` query. -/
def Benchmark.okResults : List Runners.BenchmarkResult :=
  [{ query := "full-count", database := "postgres", durationMs := 100,
     rowsReturned := 1, error := none },
   { query := "full-count", database := "postgres", durationMs := 200,
     rowsReturned := 1, error := none }]

/-- A report in which the second engine has no result for the first
engine's query. -/
def Benchmark.reportW : Benchmark.BenchmarkReport :=
  { timestamp := "2026-01-01T00:00:00.000Z"
    warmupRuns := 1
    benchmarkRuns := 3
    databases :=
      [{ database := "postgres"
         results := [{ query := "full-count",
                       description := "Count all rows in the table",
                       minMs := 400, avgMs := 500, p95Ms := 700, maxMs := 800 }] },
       { database := "clickhouse", results := [] }] }

/-- A generation engine whose `connect()` throws. -/
def Generate.genFail : Generate.GenEngineRun :=
  { connect := Except.error "connect ECONNREFUSED"
    scenario := Except.ok (0, 0) }

/-- A generation engine that succeeds. -/
def Generate.genOk : Generate.GenEngineRun :=
  { connect := Except.ok (), scenario := Except.ok (110000, 5000) }

/-- A sampled infrastructure dict. -/
def Optuna.infraW : Optuna.Dict := [("cpu", 2), ("ram_gb", 8)]

/-- A sampled service-config dict. -/
def Optuna.configW : Optuna.Dict := [("max_connections", 100)]

/-- A cached record with a matching key but a set error field. -/
def Optuna.recBad : Optuna.CacheRecord :=
  { infra := [("cpu", 2), ("ram_gb", 8)]
    config := [("max_connections", 100)]
    error := some "benchmark failed"
    throughput := 50 }

/-- A valid cached record whose dicts carry the same content in a different
order. -/
def Optuna.recGood : Optuna.CacheRecord :=
  { infra := [("ram_gb", 8), ("cpu", 2)]
    config := [("max_connections", 100)]
    error := none
    throughput := 120 }

/-! ## Helper lemmas -/

theorem Utils.sortedOf_length (l : List ℚ) :
    (Utils.sortedOf l).length = l.length :=
  (List.perm_insertionSort _ l).length_eq

theorem Utils.sortedOf_pairwise (l : List ℚ) :
    (Utils.sortedOf l).Pairwise (· ≤ ·) :=
  List.sorted_insertionSort _ l

theorem Utils.sortedOf_sum (l : List ℚ) :
    (Utils.sortedOf l).foldl (· + ·) 0 = l.sum := by
  rw [← List.sum_eq_foldl]
  exact (List.perm_insertionSort _ l).sum_eq

/-- In a `≤`-sorted list of rationals, `getD _ 0` is monotone in the index
(for in-range indices). -/
theorem Utils.getD_mono {xs : List ℚ} (hs : xs.Pairwise (· ≤ ·)) {i j : ℕ}
    (hij : i ≤ j) (hj : j < xs.length) : xs.getD i 0 ≤ xs.getD j 0 := by
  have hi : i < xs.length := Nat.lt_of_le_of_lt hij hj
  rw [List.getD_eq_getElem xs 0 hi, List.getD_eq_getElem xs 0 hj]
  rcases Nat.lt_or_ge i j with hlt | hge
  · exact List.pairwise_iff_getElem.mp hs i j hi hj hlt
  · have hij2 : i = j := Nat.le_antisymm hij hge
    subst hij2
    exact le_refl _

unseal Rat.add Rat.mul Rat.inv Rat.sub in
theorem Utils.formatDuration_500 : Utils.formatDuration 500 = "500ms" := by
  decide

unseal Rat.add Rat.mul Rat.inv Rat.sub in
theorem Utils.formatDuration_1500 : Utils.formatDuration 1500 = "1.50s" := by
  decide

unseal Rat.add Rat.mul Rat.inv Rat.sub in
theorem Utils.formatDuration_65000 :
    Utils.formatDuration 65000 = "1m 5s" := by
  decide

unseal Rat.add Rat.mul Rat.inv Rat.sub in
theorem Utils.formatDuration_3725000 :
    Utils.formatDuration 3725000 = "1h 2m 5s" := by
  decide

/-! ## Claim theorems -/

/-- C1: for every non-empty list, `calculateStats` ascending-sorts it and
returns min = first element, max = last element, avg = sum/length, median =
the element at index `⌊n/2⌋`, p95 = the element at index `⌊n·0.95⌋` (so
min ≤ median ≤ max and min ≤ p95 ≤ max); for the empty list it returns all
five fields equal to 0 and, being total, does not throw. -/
theorem calculateStats_spec (l : List ℚ) :
    Utils.calculateStats [] =
      { min := 0, max := 0, avg := 0, median := 0, p95 := 0 }
    ∧ (l ≠ [] →
      ∃ hs : Utils.sortedOf l ≠ [],
        Utils.calculateStats l =
          { min := (Utils.sortedOf l).head hs
            max := (Utils.sortedOf l).getLast hs
            avg := l.sum / (l.length : ℚ)
            median := (Utils.sortedOf l).getD (l.length / 2) 0
            p95 := (Utils.sortedOf l).getD
              (Nat.floor ((l.length : ℚ) * (19 / 20))) 0 }
        ∧ (Utils.calculateStats l).min ≤ (Utils.calculateStats l).median
        ∧ (Utils.calculateStats l).median ≤ (Utils.calculateStats l).max
        ∧ (Utils.calculateStats l).min ≤ (Utils.calculateStats l).p95
        ∧ (Utils.calculateStats l).p95 ≤ (Utils.calculateStats l).max) := by
  refine ⟨rfl, fun hne => ?_⟩
  have hlen : 0 < l.length := List.length_pos.mpr hne
  have hlen0 : l.length ≠ 0 := Nat.pos_iff_ne_zero.mp hlen
  have hslen : (Utils.sortedOf l).length = l.length := Utils.sortedOf_length l
  have hsne : Utils.sortedOf l ≠ [] := by
    intro h0
    rw [h0] at hslen
    simp at hslen
    omega
  have hcalc : Utils.calculateStats l =
      { min := (Utils.sortedOf l).getD 0 0
        max := (Utils.sortedOf l).getD ((Utils.sortedOf l).length - 1) 0
        avg := (Utils.sortedOf l).foldl (· + ·) 0 /
          ((Utils.sortedOf l).length : ℚ)
        median := (Utils.sortedOf l).getD ((Utils.sortedOf l).length / 2) 0
        p95 := (Utils.sortedOf l).getD
          (Nat.floor (((Utils.sortedOf l).length : ℚ) * (19 / 20))) 0 } := by
    simp [Utils.calculateStats, hlen0]
  have hmedlt : l.length / 2 < l.length := Nat.div_lt_self hlen (by omega)
  have hp95lt : Nat.floor ((l.length : ℚ) * (19 / 20)) < l.length := by
    rw [Nat.floor_lt (by positivity)]
    have hq : (0 : ℚ) < (l.length : ℚ) := by exact_mod_cast hlen
    nlinarith
  have hsp : (Utils.sortedOf l).Pairwise (· ≤ ·) := Utils.sortedOf_pairwise l
  have hmaxidx : (Utils.sortedOf l).length - 1 < (Utils.sortedOf l).length := by
    omega
  have h0lt : 0 < (Utils.sortedOf l).length := by omega
  refine ⟨hsne, ?_, ?_, ?_, ?_, ?_⟩
  · rw [hcalc]
    congr 1
    · rw [List.getD_eq_getElem _ 0 h0lt, List.head_eq_getElem]
    · rw [List.getD_eq_getElem _ 0 hmaxidx, List.getLast_eq_getElem]
    · rw [Utils.sortedOf_sum, hslen]
    · rw [hslen]
    · rw [hslen]
  · rw [hcalc]
    exact Utils.getD_mono hsp (Nat.zero_le _) (by omega)
  · rw [hcalc]
    exact Utils.getD_mono hsp (by omega) hmaxidx
  · rw [hcalc]
    refine Utils.getD_mono hsp (Nat.zero_le _) ?_
    rw [hslen]
    exact hp95lt
  · rw [hcalc]
    refine Utils.getD_mono hsp ?_ hmaxidx
    rw [hslen]
    omega

unseal Rat.add Rat.mul Rat.inv Rat.sub in
/-- Witness for C1 at the concrete list `[100, 200, 300, 400, 500]`. -/
theorem calculateStats_spec_witness :
    ([100, 200, 300, 400, 500] : List ℚ) ≠ []
    ∧ (∃ hs : Utils.sortedOf [100, 200, 300, 400, 500] ≠ [],
        Utils.calculateStats [100, 200, 300, 400, 500] =
          { min := (Utils.sortedOf [100, 200, 300, 400, 500]).head hs
            max := (Utils.sortedOf [100, 200, 300, 400, 500]).getLast hs
            avg := ([100, 200, 300, 400, 500] : List ℚ).sum / 5
            median := (Utils.sortedOf [100, 200, 300, 400, 500]).getD 2 0
            p95 := (Utils.sortedOf [100, 200, 300, 400, 500]).getD 4 0 }
        ∧ (Utils.calculateStats [100, 200, 300, 400, 500]).min ≤
            (Utils.calculateStats [100, 200, 300, 400, 500]).median
        ∧ (Utils.calculateStats [100, 200, 300, 400, 500]).median ≤
            (Utils.calculateStats [100, 200, 300, 400, 500]).max
        ∧ (Utils.calculateStats [100, 200, 300, 400, 500]).min ≤
            (Utils.calculateStats [100, 200, 300, 400, 500]).p95
        ∧ (Utils.calculateStats [100, 200, 300, 400, 500]).p95 ≤
            (Utils.calculateStats [100, 200, 300, 400, 500]).max)
    ∧ Utils.calculateStats [100, 200, 300, 400, 500] =
        { min := 100, max := 500, avg := 300, median := 300, p95 := 500 } := by
  refine ⟨by decide, ?_, by decide⟩
  have h := (calculateStats_spec [100, 200, 300, 400, 500]).2 (by decide)
  obtain ⟨hs, heq, hrest⟩ := h
  refine ⟨hs, ?_, hrest⟩
  convert heq using 3

/-- C6: `formatDuration` renders `< 1000` as the rounded integer + "ms",
`< 60000` as two-decimal seconds + "s", `< 3600000` as "Xm Ys" with floored
minutes and seconds, and larger values as "Xh Ym Zs" with floored hours,
minutes and seconds; in particular 500 ↦ "500ms", 1500 ↦ "1.50s",
65000 ↦ "1m 5s" and 3725000 ↦ "1h 2m 5s". -/
theorem formatDuration_spec :
    (∀ ms : ℚ, ms < 1000 →
      Utils.formatDuration ms = toString (Utils.jsRound ms) ++ "ms")
    ∧ (∀ ms : ℚ, 1000 ≤ ms → ms < 60000 →
      Utils.formatDuration ms = Utils.toFixed2 (ms / 1000) ++ "s")
    ∧ (∀ ms : ℚ, 60000 ≤ ms → ms < 3600000 →
      Utils.formatDuration ms =
        toString ⌊ms / 60000⌋ ++ "m "
          ++ toString ⌊Utils.jsMod ms 60000 / 1000⌋ ++ "s")
    ∧ (∀ ms : ℚ, 3600000 ≤ ms →
      Utils.formatDuration ms =
        toString ⌊ms / 3600000⌋ ++ "h "
          ++ toString ⌊Utils.jsMod ms 3600000 / 60000⌋ ++ "m "
          ++ toString ⌊Utils.jsMod ms 60000 / 1000⌋ ++ "s")
    ∧ Utils.formatDuration 500 = "500ms"
    ∧ Utils.formatDuration 1500 = "1.50s"
    ∧ Utils.formatDuration 65000 = "1m 5s"
    ∧ Utils.formatDuration 3725000 = "1h 2m 5s" := by
  refine ⟨?_, ?_, ?_, ?_, Utils.formatDuration_500, Utils.formatDuration_1500,
    Utils.formatDuration_65000, Utils.formatDuration_3725000⟩
  · intro ms h
    rw [Utils.formatDuration, if_pos h]
  · intro ms h1 h2
    rw [Utils.formatDuration, if_neg (not_lt.mpr (by linarith)), if_pos h2]
  · intro ms h1 h2
    rw [Utils.formatDuration, if_neg (not_lt.mpr (by linarith)),
      if_neg (not_lt.mpr (by linarith)), if_pos h2]
  · intro ms h1
    rw [Utils.formatDuration, if_neg (not_lt.mpr (by linarith)),
      if_neg (not_lt.mpr (by linarith)), if_neg (not_lt.mpr (by linarith))]

unseal Rat.add Rat.mul Rat.inv Rat.sub in
/-- Witness for C6: the minutes branch applied at 65000 ms. -/
theorem formatDuration_spec_witness :
    (60000 : ℚ) ≤ 65000 ∧ (65000 : ℚ) < 3600000
    ∧ Utils.formatDuration 65000 =
        toString ⌊(65000 : ℚ) / 60000⌋ ++ "m "
          ++ toString ⌊Utils.jsMod 65000 60000 / 1000⌋ ++ "s" :=
  ⟨by norm_num, by norm_num,
    formatDuration_spec.2.2.1 65000 (by norm_num) (by norm_num)⟩

/-- C2 counterexample: with two measured runs of `full-count` of which only
the second errors (so not every run errored), the CLI takes the error
branch — it reports `1/2` errors with the message and prints no stats
line, contradicting the claim that such a pair still yields a stats line. -/
theorem partial_errors_suppress_stats_cex :
    (Runners.runBenchmark "postgres" Benchmark.execPartialFail
        Queries.QUERIES.headI 2).any (fun r => !(truthyStr r.error)) = true
    ∧ Benchmark.processQueryResults
        (Runners.runBenchmark "postgres" Benchmark.execPartialFail
          Queries.QUERIES.headI 2)
      = Benchmark.QueryOutcome.errorsReported 1 2 ["connection reset"] :=
  ⟨rfl, rfl⟩

/-- C2 (amended): the CLI prints the stats line for a query/engine pair
only when **no** measured run errored (the stats are then computed over all
the pair's durations); as soon as at least one run errored it prints the
error count and the error messages instead and skips the stats line. -/
theorem stats_printed_iff_no_run_errored
    (results : List Runners.BenchmarkResult) (h : results ≠ []) :
    (results.filter (fun r => truthyStr r.error) = [] →
      Benchmark.processQueryResults results =
        Benchmark.QueryOutcome.statsPrinted
          (Utils.calculateStats (results.map (fun r => r.durationMs)))
          (Benchmark.statsLineText
            (Utils.calculateStats (results.map (fun r => r.durationMs)))))
    ∧ (results.filter (fun r => truthyStr r.error) ≠ [] →
      Benchmark.processQueryResults results =
        Benchmark.QueryOutcome.errorsReported
          (results.filter (fun r => truthyStr r.error)).length
          results.length
          ((results.filter (fun r => truthyStr r.error)).map
            (fun r => r.error.getD "Unknown error"))) := by
  have hne : results.isEmpty = false := by
    simp [List.isEmpty_iff, h]
  constructor
  · intro herr
    simp [Benchmark.processQueryResults, hne, herr]
  · intro herr
    have herr2 : (results.filter (fun r => truthyStr r.error)).isEmpty = false := by
      simp [List.isEmpty_iff, herr]
    simp [Benchmark.processQueryResults, hne, herr2]

/-- Witness for C2 (amended): two successful runs produce the stats line. -/
theorem stats_printed_iff_no_run_errored_witness :
    Benchmark.okResults ≠ []
    ∧ Benchmark.okResults.filter (fun r => truthyStr r.error) = []
    ∧ Benchmark.processQueryResults Benchmark.okResults =
        Benchmark.QueryOutcome.statsPrinted
          (Utils.calculateStats
            (Benchmark.okResults.map (fun r => r.durationMs)))
          (Benchmark.statsLineText
            (Utils.calculateStats
              (Benchmark.okResults.map (fun r => r.durationMs)))) :=
  ⟨by decide, by decide,
    (stats_printed_iff_no_run_errored Benchmark.okResults (by decide)).1
      (by decide)⟩

/-- C3: when the catalog entry has no SQL text for the runner's engine
(missing key or empty string, which JavaScript treats as falsy),
`runBenchmark` returns `[]` and the CLI's loop body classifies the query as
skipped, not as an error; otherwise there are exactly `runs` result records,
a run whose execution throws contributes a record carrying the thrown
message in its `error` field, a successful run contributes its measured
record, and in particular no exception propagates and the remaining runs
still execute. -/
theorem runBenchmark_spec (name : String) (exec : ℕ → Except String (ℚ × ℕ))
    (q : Queries.QueryDefinition) (runs : ℕ) :
    ((q.sql.get name = none ∨ q.sql.get name = some "") →
      Runners.runBenchmark name exec q runs = []
      ∧ Benchmark.processQueryResults (Runners.runBenchmark name exec q runs)
          = Benchmark.QueryOutcome.skipped)
    ∧ (∀ s, q.sql.get name = some s → s ≠ "" →
      (Runners.runBenchmark name exec q runs).length = runs
      ∧ (∀ i, i < runs → ∀ e, exec i = Except.error e →
          (Runners.runBenchmark name exec q runs)[i]? =
            some { query := q.name, database := name, durationMs := 0,
                   rowsReturned := 0, error := some e })
      ∧ (∀ i, i < runs → ∀ d rc, exec i = Except.ok (d, rc) →
          (Runners.runBenchmark name exec q runs)[i]? =
            some { query := q.name, database := name, durationMs := d,
                   rowsReturned := rc, error := none })) := by
  constructor
  · intro h
    have hempty : Runners.runBenchmark name exec q runs = [] := by
      rcases h with h | h <;> simp [Runners.runBenchmark, h]
    exact ⟨hempty, by rw [hempty]; rfl⟩
  · intro s hs hne
    have hrB : Runners.runBenchmark name exec q runs =
        (List.range runs).map (fun i =>
          match exec i with
          | Except.ok dr =>
            { query := q.name, database := name,
              durationMs := dr.1, rowsReturned := dr.2, error := none }
          | Except.error e =>
            { query := q.name, database := name,
              durationMs := 0, rowsReturned := 0, error := some e }) := by
      simp [Runners.runBenchmark, hs, hne]
    refine ⟨by rw [hrB]; simp, ?_, ?_⟩
    · intro i hi e he
      rw [hrB, List.getElem?_map, List.getElem?_range hi]
      simp [he]
    · intro i hi d rc he
      rw [hrB, List.getElem?_map, List.getElem?_range hi]
      simp [he]

/-- Witness for C3: the `full-count` query on postgres with two runs, the
second of which throws: both records exist, the first successful and the
second carrying the message. -/
theorem runBenchmark_spec_witness :
    Queries.QUERIES.headI.sql.get "postgres"
      = some "SELECT COUNT(*) FROM samples"
    ∧ (Runners.runBenchmark "postgres" Benchmark.execPartialFail
        Queries.QUERIES.headI 2).length = 2
    ∧ (Runners.runBenchmark "postgres" Benchmark.execPartialFail
        Queries.QUERIES.headI 2)[1]? =
      some { query := "full-count", database := "postgres", durationMs := 0,
             rowsReturned := 0, error := some "connection reset" }
    ∧ (Runners.runBenchmark "postgres" Benchmark.execPartialFail
        Queries.QUERIES.headI 2)[0]? =
      some { query := "full-count", database := "postgres", durationMs := 100,
             rowsReturned := 1, error := none } := by
  have h := (runBenchmark_spec "postgres" Benchmark.execPartialFail
    Queries.QUERIES.headI 2).2 "SELECT COUNT(*) FROM samples" rfl (by decide)
  exact ⟨rfl, h.1, h.2.1 1 (by decide) "connection reset" rfl,
    h.2.2 0 (by decide) 100 1 rfl⟩

/-- C7: a `-q`/`--query` value matching no catalog entry makes the CLI
print the error together with one line per available query name and exit
with code 1; a value naming any existing query triggers no such exit. -/
theorem unknown_query_filter_spec (f : String) :
    ((∀ q ∈ Queries.QUERIES, q.name ≠ f) →
      Benchmark.filterExit (some f)
        = some (1, Benchmark.unknownQueryErrorLines f)
      ∧ ∀ q ∈ Queries.QUERIES,
          ("  - " ++ q.name ++ ": " ++ q.description)
            ∈ Benchmark.unknownQueryErrorLines f)
    ∧ ((∃ q ∈ Queries.QUERIES, q.name = f) →
      Benchmark.filterExit (some f) = none) := by
  constructor
  · intro h
    have hempty : (Benchmark.queriesToRun (some f)).isEmpty = true := by
      simp only [Benchmark.queriesToRun, List.isEmpty_iff,
        List.filter_eq_nil_iff]
      intro q hq
      simpa using h q hq
    refine ⟨by simp [Benchmark.filterExit, hempty], ?_⟩
    intro q hq
    exact List.mem_cons_of_mem _ (List.mem_map_of_mem _ hq)
  · rintro ⟨q, hq, rfl⟩
    have hmem : q ∈ Queries.QUERIES.filter (fun q2 => q2.name == q.name) := by
      simp [List.mem_filter, hq]
    have hne : (Benchmark.queriesToRun (some q.name)).isEmpty = false := by
      simp only [Benchmark.queriesToRun]
      simpa using List.ne_nil_of_mem hmem
    simp [Benchmark.filterExit, hne]

/-- Witness for C7: the name `nonexistent-name` matches nothing and exits
with code 1 listing the names; the name of the first catalog entry matches
and does not exit. -/
theorem unknown_query_filter_spec_witness :
    (Benchmark.filterExit (some "nonexistent-name")
      = some (1, Benchmark.unknownQueryErrorLines "nonexistent-name"))
    ∧ ("  - " ++ Queries.QUERIES.headI.name ++ ": "
        ++ Queries.QUERIES.headI.description)
        ∈ Benchmark.unknownQueryErrorLines "nonexistent-name"
    ∧ Benchmark.filterExit (some "full-count") = none := by
  refine ⟨((unknown_query_filter_spec "nonexistent-name").1 (by decide)).1,
    ((unknown_query_filter_spec "nonexistent-name").1 (by decide)).2
      Queries.QUERIES.headI (by decide), ?_⟩
  exact (unknown_query_filter_spec "full-count").2
    ⟨Queries.QUERIES.headI, by decide, rfl⟩

/-- C4 (code evaluation): the query catalog of `src/queries.ts` consists of
exactly the eight basic entries and the extended catalog of
`src/unnamed/part_003` of those eight plus pagination, dedupe and two join
entries — no deduplication-category queries (duplicate-name grouping,
group-size distribution, rank-within-group), no matching-category queries
and no Levenshtein query appear, and the `QueryDefinition` record carries no
`category` or `expensive` field. -/
theorem queries_catalog_names_eval :
    Queries.QUERIES.map (fun q => q.name) =
      ["full-count", "filter-by-status", "aggregate-by-status", "range-scan",
       "top-n", "string-like", "distinct-count", "percentile"]
    ∧ Part003.QUERIES.map (fun q => q.name) =
      ["full-count", "filter-by-status", "aggregate-by-status", "range-scan",
       "top-n", "string-like", "distinct-count", "percentile",
       "pagination-offset", "pagination-offset-ordered", "dedupe",
       "filter-join", "aggregate-join"] :=
  ⟨rfl, rfl⟩

/-- C5 counterexample: with two selected engines of which the first fails
to connect, the generation loop aborts — the second engine inserts
nothing, the error escapes to the top-level catch and the process exits
with code 1, contradicting the claim that the failure is caught and
generation proceeds for subsequent engines. -/
theorem generation_failure_skips_rest_cex :
    Generate.mainGenerate [Generate.genFail, Generate.genOk]
      = ([], some "connect ECONNREFUSED")
    ∧ Generate.generateExitCode [Generate.genFail, Generate.genOk] = 1 :=
  ⟨rfl, rfl⟩

/-- C5 (amended): a failure during one engine's generation is **not**
caught per engine: `generateForDatabase` only guarantees (via
`try`/`finally`) that the engine's generator is disconnected, after which
the error propagates out of the `for` loop — the remaining engines are
skipped and the top-level catch exits the process with code 1; an engine
that succeeds lets the loop continue. -/
theorem generation_failure_propagates (g : Generate.GenEngineRun)
    (rest : List Generate.GenEngineRun) :
    (Generate.generateForDatabase g).2 = true
    ∧ (∀ e, (Generate.generateForDatabase g).1 = Except.error e →
        Generate.mainGenerate (g :: rest) = ([], some e)
        ∧ Generate.generateExitCode (g :: rest) = 1)
    ∧ (∀ res, (Generate.generateForDatabase g).1 = Except.ok res →
        Generate.mainGenerate (g :: rest) =
          (res :: (Generate.mainGenerate rest).1,
            (Generate.mainGenerate rest).2)) := by
  refine ⟨?_, ?_, ?_⟩
  · cases hg : g.connect <;> simp [Generate.generateForDatabase, hg]
  · intro e he
    exact ⟨by simp [Generate.mainGenerate, he],
      by simp [Generate.generateExitCode, Generate.mainGenerate, he]⟩
  · intro res he
    simp [Generate.mainGenerate, he]

/-- Witness for C5 (amended): the failing engine is disconnected, the loop
aborts with its error and the exit code is 1. -/
theorem generation_failure_propagates_witness :
    (Generate.generateForDatabase Generate.genFail).1
      = Except.error "connect ECONNREFUSED"
    ∧ (Generate.generateForDatabase Generate.genFail).2 = true
    ∧ Generate.mainGenerate [Generate.genFail, Generate.genOk]
        = ([], some "connect ECONNREFUSED")
    ∧ Generate.generateExitCode [Generate.genFail, Generate.genOk] = 1 := by
  have h := generation_failure_propagates Generate.genFail [Generate.genOk]
  exact ⟨rfl, h.1, (h.2.1 "connect ECONNREFUSED" rfl).1,
    (h.2.1 "connect ECONNREFUSED" rfl).2⟩

theorem Benchmark.benchmarkDatabase_database (nm : String)
    (oracle : Benchmark.EngineRun) (qs : List Queries.QueryDefinition)
    (runs : ℕ) :
    (Benchmark.benchmarkDatabase nm oracle qs runs).database = nm := by
  cases h : oracle.connect <;> simp [Benchmark.benchmarkDatabase, h]

/-- C10: `benchmarkDatabase` always returns a `DatabaseResult` (the engine
pass's `try`/`catch` swallows `connect` failures, leaving the accumulated —
then empty — result list), so the report's `databases` array has exactly
one entry per selected engine in the fixed order postgres, clickhouse,
trino; a fully-failed engine contributes `{database, results: []}`, and if
the first selected engine fails entirely the summary-table query list is
empty. -/
theorem benchmark_report_entries_spec (rp rc rt : Bool)
    (pg ch tr : Benchmark.EngineRun) (qs : List Queries.QueryDefinition)
    (runs : ℕ) :
    (Benchmark.mainDatabases rp rc rt pg ch tr qs runs).map
        (fun d => d.database)
      = (if rp then ["postgres"] else [])
        ++ (if rc then ["clickhouse"] else [])
        ++ (if rt then ["trino"] else [])
    ∧ (∀ nm oracle e, Benchmark.EngineRun.connect oracle = Except.error e →
        Benchmark.benchmarkDatabase nm oracle qs runs
          = { database := nm, results := [] })
    ∧ (rp = true → ∀ e, pg.connect = Except.error e →
        Benchmark.summaryQueries
          (Benchmark.mainDatabases rp rc rt pg ch tr qs runs) = [])
    ∧ (rp = false → rc = true → ∀ e, ch.connect = Except.error e →
        Benchmark.summaryQueries
          (Benchmark.mainDatabases rp rc rt pg ch tr qs runs) = [])
    ∧ (rp = false → rc = false → rt = true → ∀ e,
        tr.connect = Except.error e →
        Benchmark.summaryQueries
          (Benchmark.mainDatabases rp rc rt pg ch tr qs runs) = []) := by
  refine ⟨?_, ?_, ?_, ?_, ?_⟩
  · cases rp <;> cases rc <;> cases rt <;>
      simp [Benchmark.mainDatabases, Benchmark.benchmarkDatabase_database]
  · intro nm oracle e he
    simp [Benchmark.benchmarkDatabase, he]
  · intro hrp e he
    subst hrp
    have hdb : Benchmark.benchmarkDatabase "postgres" pg qs runs
        = { database := "postgres", results := [] } := by
      simp [Benchmark.benchmarkDatabase, he]
    simp [Benchmark.mainDatabases, hdb, Benchmark.summaryQueries]
  · intro hrp hrc e he
    subst hrp
    subst hrc
    have hdb : Benchmark.benchmarkDatabase "clickhouse" ch qs runs
        = { database := "clickhouse", results := [] } := by
      simp [Benchmark.benchmarkDatabase, he]
    simp [Benchmark.mainDatabases, hdb, Benchmark.summaryQueries]
  · intro hrp hrc hrt e he
    subst hrp
    subst hrc
    subst hrt
    have hdb : Benchmark.benchmarkDatabase "trino" tr qs runs
        = { database := "trino", results := [] } := by
      simp [Benchmark.benchmarkDatabase, he]
    simp [Benchmark.mainDatabases, hdb, Benchmark.summaryQueries]

/-- Witness for C10: postgres and clickhouse selected, postgres down — the
report still has both entries in order and the summary query list is
empty. -/
theorem benchmark_report_entries_spec_witness :
    Benchmark.engineDown.connect = Except.error "connect ECONNREFUSED"
    ∧ (Benchmark.mainDatabases true true false Benchmark.engineDown
        Benchmark.engineUp Benchmark.engineUp Queries.QUERIES 3).map
        (fun d => d.database) = ["postgres", "clickhouse"]
    ∧ Benchmark.summaryQueries
        (Benchmark.mainDatabases true true false Benchmark.engineDown
          Benchmark.engineUp Benchmark.engineUp Queries.QUERIES 3) = [] := by
  have h := benchmark_report_entries_spec true true false Benchmark.engineDown
    Benchmark.engineUp Benchmark.engineUp Queries.QUERIES 3
  exact ⟨rfl, h.1, h.2.2.1 rfl "connect ECONNREFUSED" rfl⟩

/-- C9: the Markdown summary table has one row per query of the first
reported engine's result list and one column per engine; each cell is that
engine's average duration rendered by `formatDuration`, and is the
placeholder `-` exactly when the engine has no result for the query (the
renderer is total, so a missing result cannot crash it). -/
theorem markdown_summary_table_spec (report : Benchmark.BenchmarkReport) :
    (∀ db q, (∀ r ∈ Benchmark.DatabaseResult.results db, r.query ≠ q) →
      Benchmark.summaryCell db q = "-")
    ∧ (∀ db q r,
        (Benchmark.DatabaseResult.results db).find? (fun x => x.query == q)
          = some r →
        Benchmark.summaryCell db q = Utils.formatDuration r.avgMs)
    ∧ (∀ q, Benchmark.summaryRowLine report.databases q =
        "| " ++ q ++ " | " ++ String.intercalate " | "
          (report.databases.map (fun db => Benchmark.summaryCell db q))
          ++ " |")
    ∧ Benchmark.markdownLines report =
      ["# Benchmark Report", "",
       "**Date:** " ++ report.timestamp,
       "**Warmup Runs:** " ++ toString report.warmupRuns,
       "**Benchmark Runs:** " ++ toString report.benchmarkRuns,
       "", "## Results", "",
       "| Query | " ++ String.intercalate " | "
         (report.databases.map (fun d => d.database)) ++ " |",
       "|-------|" ++ String.intercalate "|"
         (report.databases.map (fun _ => "------:")) ++ "|"]
      ++ (Benchmark.summaryQueries report.databases).map
          (Benchmark.summaryRowLine report.databases)
      ++ ["", "## Detailed Results", ""]
      ++ report.databases.flatMap (fun db =>
          ["### " ++ db.database, "",
           "| Query | Min | Avg | P95 | Max |",
           "|-------|----:|----:|----:|----:|"]
          ++ db.results.map Benchmark.detailRowLine ++ [""]) := by
  refine ⟨?_, ?_, fun q => rfl, rfl⟩
  · intro db q h
    have hfind : db.results.find? (fun x => x.query == q) = none :=
      List.find?_eq_none.mpr (fun r hr => by simpa using h r hr)
    simp [Benchmark.summaryCell, hfind]
  · intro db q r h
    simp [Benchmark.summaryCell, h]

theorem Optuna.lexLt_trans (x : List Char) :
    ∀ y z, Optuna.lexLt x y = true → Optuna.lexLt y z = true →
      Optuna.lexLt x z = true := by
  induction x with
  | nil =>
    intro y z h1 h2
    cases z with
    | nil =>
      cases y with
      | nil => simp [Optuna.lexLt] at h1
      | cons b bs => simp [Optuna.lexLt] at h2
    | cons c cs => simp [Optuna.lexLt]
  | cons a as ih =>
    intro y z h1 h2
    cases y with
    | nil => simp [Optuna.lexLt] at h1
    | cons b bs =>
      cases z with
      | nil => simp [Optuna.lexLt] at h2
      | cons c cs =>
        simp only [Optuna.lexLt] at h1 h2 ⊢
        by_cases hab : a < b
        · by_cases hbc : b < c
          · simp [lt_trans hab hbc]
          · by_cases hcb : c < b
            · rw [if_neg hbc, if_pos hcb] at h2
              exact absurd h2 (by simp)
            · have hec : b = c := le_antisymm (not_lt.mp hcb) (not_lt.mp hbc)
              subst hec
              simp [hab]
        · by_cases hba : b < a
          · rw [if_neg hab, if_pos hba] at h1
            exact absurd h1 (by simp)
          · have hea : a = b := le_antisymm (not_lt.mp hba) (not_lt.mp hab)
            subst hea
            rw [if_neg hab, if_neg hba] at h1
            by_cases hac : a < c
            · simp [hac]
            · by_cases hca : c < a
              · rw [if_neg hac, if_pos hca] at h2
                exact absurd h2 (by simp)
              · have hec : a = c :=
                  le_antisymm (not_lt.mp hca) (not_lt.mp hac)
                subst hec
                rw [if_neg hac, if_neg hac] at h2
                rw [if_neg hac, if_neg hac]
                exact ih bs cs h1 h2

theorem Optuna.lexLt_eq_of_not (x : List Char) :
    ∀ y, Optuna.lexLt x y = false → Optuna.lexLt y x = false → x = y := by
  induction x with
  | nil =>
    intro y h1 h2
    cases y with
    | nil => rfl
    | cons b bs => simp [Optuna.lexLt] at h1
  | cons a as ih =>
    intro y h1 h2
    cases y with
    | nil => simp [Optuna.lexLt] at h2
    | cons b bs =>
      simp only [Optuna.lexLt] at h1 h2
      by_cases hab : a < b
      · rw [if_pos hab] at h1
        exact absurd h1 (by simp)
      · by_cases hba : b < a
        · rw [if_pos hba] at h2
          exact absurd h2 (by simp)
        · have he : a = b := le_antisymm (not_lt.mp hba) (not_lt.mp hab)
          subst he
          rw [if_neg hab, if_neg hab] at h1 h2
          rw [ih bs h1 h2]

theorem Optuna.lexLt_irrefl (x : List Char) : Optuna.lexLt x x = false := by
  induction x with
  | nil => rfl
  | cons a as ih => simp [Optuna.lexLt, lt_self_iff_false, ih]

theorem Optuna.strLt_trans (a b c : String) (h1 : Optuna.strLt a b = true)
    (h2 : Optuna.strLt b c = true) : Optuna.strLt a c = true := by
  rw [Optuna.strLt] at h1 h2 ⊢
  exact Optuna.lexLt_trans a.data b.data c.data h1 h2

theorem Optuna.strLt_eq_of_not (a b : String) (h1 : Optuna.strLt a b = false)
    (h2 : Optuna.strLt b a = false) : a = b := by
  obtain ⟨da⟩ := a
  obtain ⟨db⟩ := b
  rw [Optuna.strLt] at h1 h2
  rw [Optuna.lexLt_eq_of_not da db h1 h2]

theorem Optuna.strLt_irrefl (a : String) : Optuna.strLt a a = false := by
  rw [Optuna.strLt]
  exact Optuna.lexLt_irrefl a.data

theorem Optuna.strLt_asymm (a b : String) (h1 : Optuna.strLt a b = true)
    (h2 : Optuna.strLt b a = true) : False := by
  have h3 := Optuna.strLt_trans a b a h1 h2
  rw [Optuna.strLt_irrefl] at h3
  exact Bool.noConfusion h3

theorem Optuna.strLt_total_ne (a b : String) (hne : a ≠ b) :
    Optuna.strLt a b = true ∨ Optuna.strLt b a = true := by
  cases h1 : Optuna.strLt a b with
  | true => exact Or.inl rfl
  | false =>
    cases h2 : Optuna.strLt b a with
    | true => exact Or.inr rfl
    | false => exact absurd (Optuna.strLt_eq_of_not a b h1 h2) hne

theorem Optuna.assocFind_dictInsert (d : Optuna.Dict) (k : String) (v : Int)
    (k2 : String) :
    Optuna.assocFind (Optuna.dictInsert d k v) k2
      = if k2 = k then some v else Optuna.assocFind d k2 := by
  induction d with
  | nil => simp [Optuna.dictInsert, Optuna.assocFind]
  | cons p rest ih =>
    obtain ⟨k₁, v₁⟩ := p
    by_cases h1 : Optuna.strLt k k₁ = true
    · rw [show Optuna.dictInsert ((k₁, v₁) :: rest) k v
          = (k, v) :: (k₁, v₁) :: rest by simp [Optuna.dictInsert, h1]]
      simp [Optuna.assocFind]
    · by_cases h2 : k = k₁
      · subst h2
        rw [show Optuna.dictInsert ((k, v₁) :: rest) k v = (k, v) :: rest by
          simp [Optuna.dictInsert, h1]]
        show (if k2 = k then some v else Optuna.assocFind rest k2) = _
        show _ = (if k2 = k then some v
          else if k2 = k then some v₁ else Optuna.assocFind rest k2)
        by_cases h3 : k2 = k <;> simp [h3]
      · rw [show Optuna.dictInsert ((k₁, v₁) :: rest) k v
            = (k₁, v₁) :: Optuna.dictInsert rest k v by
          simp [Optuna.dictInsert, h1, h2]]
        show (if k2 = k₁ then some v₁
          else Optuna.assocFind (Optuna.dictInsert rest k v) k2) = _
        show _ = (if k2 = k then some v
          else if k2 = k₁ then some v₁ else Optuna.assocFind rest k2)
        by_cases h3 : k2 = k₁
        · rw [if_pos h3, if_neg (fun hh => h2 (hh.symm.trans h3)), if_pos h3]
        · rw [if_neg h3, ih, if_neg h3]

theorem Optuna.assocFind_foldl (l : Optuna.Dict) (d : Optuna.Dict)
    (k : String) :
    Optuna.assocFind
        (l.foldl (fun acc p => Optuna.dictInsert acc p.1 p.2) d) k
      = l.foldl (fun acc p => if p.1 = k then some p.2 else acc)
          (Optuna.assocFind d k) := by
  induction l generalizing d with
  | nil => rfl
  | cons p t ih =>
    simp only [List.foldl_cons]
    rw [ih, Optuna.assocFind_dictInsert]
    congr 1
    rcases eq_or_ne k p.1 with h | h
    · subst h
      simp
    · rw [if_neg h, if_neg (Ne.symm h)]

/-- The last-binding-wins dict lookup coincides with first-match lookup on
the canonical form. -/
theorem Optuna.pyDictGet_eq (d : Optuna.Dict) (k : String) :
    Optuna.pyDictGet d k = Optuna.assocFind (Optuna.dictCanon d) k := by
  rw [Optuna.pyDictGet, Optuna.dictCanon, Optuna.assocFind_foldl]
  rfl

theorem Optuna.mem_dictInsert {p : String × Int} (d : Optuna.Dict)
    (k : String) (v : Int) (h : p ∈ Optuna.dictInsert d k v) :
    p = (k, v) ∨ p ∈ d := by
  induction d with
  | nil => simpa [Optuna.dictInsert] using h
  | cons q rest ih =>
    obtain ⟨k₁, v₁⟩ := q
    by_cases h1 : Optuna.strLt k k₁ = true
    · rw [show Optuna.dictInsert ((k₁, v₁) :: rest) k v
          = (k, v) :: (k₁, v₁) :: rest by simp [Optuna.dictInsert, h1]] at h
      simp only [List.mem_cons] at h ⊢
      tauto
    · by_cases h2 : k = k₁
      · subst h2
        rw [show Optuna.dictInsert ((k, v₁) :: rest) k v = (k, v) :: rest by
          simp [Optuna.dictInsert, h1]] at h
        simp only [List.mem_cons] at h ⊢
        tauto
      · rw [show Optuna.dictInsert ((k₁, v₁) :: rest) k v
            = (k₁, v₁) :: Optuna.dictInsert rest k v by
          simp [Optuna.dictInsert, h1, h2]] at h
        rcases List.mem_cons.mp h with h | h
        · right
          simp [h]
        · rcases ih h with h | h
          · exact Or.inl h
          · exact Or.inr (List.mem_cons_of_mem _ h)

theorem Optuna.pairwise_dictInsert {d : Optuna.Dict} (k : String) (v : Int)
    (h : d.Pairwise (fun a b => Optuna.strLt a.1 b.1 = true)) :
    (Optuna.dictInsert d k v).Pairwise
      (fun a b => Optuna.strLt a.1 b.1 = true) := by
  induction d with
  | nil => simp [Optuna.dictInsert]
  | cons q rest ih =>
    obtain ⟨k₁, v₁⟩ := q
    rcases List.pairwise_cons.mp h with ⟨h1, h2⟩
    by_cases hk : Optuna.strLt k k₁ = true
    · rw [show Optuna.dictInsert ((k₁, v₁) :: rest) k v
          = (k, v) :: (k₁, v₁) :: rest by simp [Optuna.dictInsert, hk]]
      refine List.pairwise_cons.mpr ⟨?_, h⟩
      intro b hb
      rcases List.mem_cons.mp hb with rfl | hb
      · exact hk
      · exact Optuna.strLt_trans _ _ _ hk (h1 b hb)
    · by_cases he : k = k₁
      · subst he
        rw [show Optuna.dictInsert ((k, v₁) :: rest) k v = (k, v) :: rest by
          simp [Optuna.dictInsert, hk]]
        exact List.pairwise_cons.mpr ⟨h1, h2⟩
      · rw [show Optuna.dictInsert ((k₁, v₁) :: rest) k v
            = (k₁, v₁) :: Optuna.dictInsert rest k v by
          simp [Optuna.dictInsert, hk, he]]
        refine List.pairwise_cons.mpr ⟨?_, ih h2⟩
        intro b hb
        rcases Optuna.mem_dictInsert rest k v hb with rfl | hb
        · rcases Optuna.strLt_total_ne k₁ k (fun hh => he hh.symm) with
            hlt | hlt
          · exact hlt
          · exact absurd hlt hk
        · exact h1 b hb

theorem Optuna.pairwise_dictCanon (d : Optuna.Dict) :
    (Optuna.dictCanon d).Pairwise
      (fun a b => Optuna.strLt a.1 b.1 = true) := by
  suffices h : ∀ (l acc : Optuna.Dict),
      acc.Pairwise (fun a b => Optuna.strLt a.1 b.1 = true) →
      (l.foldl (fun acc p => Optuna.dictInsert acc p.1 p.2) acc).Pairwise
        (fun a b => Optuna.strLt a.1 b.1 = true) from h d [] (by simp)
  intro l
  induction l with
  | nil =>
    intro acc h
    simpa using h
  | cons p t ih =>
    intro acc h
    exact ih _ (Optuna.pairwise_dictInsert _ _ h)

theorem Optuna.assocFind_eq_none {d : Optuna.Dict} {k : String}
    (h : ∀ p ∈ d, p.1 ≠ k) : Optuna.assocFind d k = none := by
  induction d with
  | nil => rfl
  | cons p rest ih =>
    obtain ⟨k₁, v₁⟩ := p
    have hk : k ≠ k₁ := fun he =>
      (h (k₁, v₁) (List.mem_cons_self _ _)) he.symm
    simp only [Optuna.assocFind, if_neg hk]
    exact ih (fun p hp => h p (List.mem_cons_of_mem _ hp))

/-- Two key-sorted duplicate-free association lists with the same lookup
function are equal. -/
theorem Optuna.assocFind_ext : ∀ (d1 d2 : Optuna.Dict),
    d1.Pairwise (fun a b => Optuna.strLt a.1 b.1 = true) →
    d2.Pairwise (fun a b => Optuna.strLt a.1 b.1 = true) →
    (∀ k, Optuna.assocFind d1 k = Optuna.assocFind d2 k) → d1 = d2
  | [], [], _, _, _ => rfl
  | [], (k2, v2) :: t2, _, _, h => by
    have h0 := h k2
    simp [Optuna.assocFind] at h0
  | (k1, v1) :: t1, [], _, _, h => by
    have h0 := h k1
    simp [Optuna.assocFind] at h0
  | (k1, v1) :: t1, (k2, v2) :: t2, h1, h2, h => by
    rcases List.pairwise_cons.mp h1 with ⟨h1a, h1b⟩
    rcases List.pairwise_cons.mp h2 with ⟨h2a, h2b⟩
    have hk : k1 = k2 := by
      by_contra hne
      rcases Optuna.strLt_total_ne k1 k2 hne with hlt | hlt
      · have e1 : Optuna.assocFind ((k1, v1) :: t1) k1 = some v1 := by
          simp [Optuna.assocFind]
        have e2 : Optuna.assocFind ((k2, v2) :: t2) k1 = none := by
          refine Optuna.assocFind_eq_none ?_
          intro p hp
          rcases List.mem_cons.mp hp with rfl | hp
          · intro he
            have he2 : k2 = k1 := he
            rw [he2] at hlt
            rw [Optuna.strLt_irrefl] at hlt
            exact Bool.noConfusion hlt
          · intro he
            have hlt2 : Optuna.strLt k2 p.1 = true := h2a p hp
            rw [he] at hlt2
            exact Optuna.strLt_asymm k1 k2 hlt hlt2
        have hc := h k1
        rw [e1, e2] at hc
        exact Option.noConfusion hc
      · have e1 : Optuna.assocFind ((k2, v2) :: t2) k2 = some v2 := by
          simp [Optuna.assocFind]
        have e2 : Optuna.assocFind ((k1, v1) :: t1) k2 = none := by
          refine Optuna.assocFind_eq_none ?_
          intro p hp
          rcases List.mem_cons.mp hp with rfl | hp
          · intro he
            exact hne (show k1 = k2 from he)
          · intro he
            have hlt2 : Optuna.strLt k1 p.1 = true := h1a p hp
            rw [he] at hlt2
            exact Optuna.strLt_asymm k1 k2 hlt2 hlt
        have hc := h k2
        rw [e1, e2] at hc
        exact Option.noConfusion hc
    subst hk
    have hv : v1 = v2 := by
      have h0 := h k1
      simpa [Optuna.assocFind] using h0
    subst hv
    have ht : ∀ k, Optuna.assocFind t1 k = Optuna.assocFind t2 k := by
      intro k
      by_cases hk : k = k1
      · subst hk
        rw [Optuna.assocFind_eq_none (fun p hp => ?_),
          Optuna.assocFind_eq_none (fun p hp => ?_)]
        · intro he
          have hx := h2a p hp
          rw [he] at hx
          rw [Optuna.strLt_irrefl] at hx
          exact Bool.noConfusion hx
        · intro he
          have hx := h1a p hp
          rw [he] at hx
          rw [Optuna.strLt_irrefl] at hx
          exact Bool.noConfusion hx
      · have h0 := h k
        simpa [Optuna.assocFind, hk] using h0
    rw [Optuna.assocFind_ext t1 t2 h1b h2b ht]

/-- C8: `config_to_key` depends only on the content of the merged
`{**infra, **config}` dict — equal content (in any order) gives an equal
key, and any differing value gives a different key — and
`find_cached_result` never returns a record whose error field is set
(truthy) or whose stored throughput is ≤ 0, even on an exact key match. -/
theorem config_key_and_cache_spec :
    (∀ i1 c1 i2 c2 : Optuna.Dict,
      Optuna.config_to_key i1 c1 = Optuna.config_to_key i2 c2 ↔
        ∀ k, Optuna.pyDictGet (i1 ++ c1) k = Optuna.pyDictGet (i2 ++ c2) k)
    ∧ (∀ infra config cache r,
        Optuna.find_cached_result infra config cache = some r →
          truthyStr r.error = false ∧ 0 < r.throughput
          ∧ Optuna.config_to_key r.infra r.config
              = Optuna.config_to_key infra config) := by
  constructor
  · intro i1 c1 i2 c2
    constructor
    · intro he k
      rw [Optuna.pyDictGet_eq, Optuna.pyDictGet_eq]
      rw [Optuna.config_to_key, Optuna.config_to_key] at he
      rw [he]
    · intro hp
      rw [Optuna.config_to_key, Optuna.config_to_key]
      refine Optuna.assocFind_ext _ _ (Optuna.pairwise_dictCanon _)
        (Optuna.pairwise_dictCanon _) ?_
      intro k
      rw [← Optuna.pyDictGet_eq, ← Optuna.pyDictGet_eq]
      exact hp k
  · intro infra config cache r h
    simp only [Optuna.find_cached_result] at h
    have hp := List.find?_some h
    simp only [Bool.and_eq_true, beq_iff_eq, Bool.not_eq_true',
      decide_eq_true_eq] at hp
    exact ⟨hp.1.2, hp.2, hp.1.1⟩

unseal Rat.add Rat.mul Rat.inv Rat.sub in
/-- Witness for C8: a cache holding a key-matching record with a set error
followed by a valid record whose dicts permute the looked-up content — the
valid record is returned, and the claim's example keys agree. -/
theorem config_key_and_cache_spec_witness :
    Optuna.find_cached_result Optuna.infraW Optuna.configW
        [Optuna.recBad, Optuna.recGood] = some Optuna.recGood
    ∧ (truthyStr Optuna.recGood.error = false
        ∧ 0 < Optuna.recGood.throughput
        ∧ Optuna.config_to_key Optuna.recGood.infra Optuna.recGood.config
            = Optuna.config_to_key Optuna.infraW Optuna.configW)
    ∧ Optuna.config_to_key [("a", 1), ("b", 2)] []
        = Optuna.config_to_key [("b", 2), ("a", 1)] [] := by
  refine ⟨by decide, ?_, by decide⟩
  exact config_key_and_cache_spec.2 Optuna.infraW Optuna.configW
    [Optuna.recBad, Optuna.recGood] Optuna.recGood (by decide)

unseal Rat.add Rat.mul Rat.inv Rat.sub in
/-- Witness for C9: in `reportW` the clickhouse engine has no result for
`full-count`, so its cell is `-` while the postgres cell is the formatted
average. -/
theorem markdown_summary_table_spec_witness :
    Benchmark.summaryCell { database := "clickhouse", results := [] }
      "full-count" = "-"
    ∧ Benchmark.summaryRowLine Benchmark.reportW.databases "full-count"
      = "| full-count | 500ms | - |" := by
  refine ⟨(markdown_summary_table_spec Benchmark.reportW).1
    { database := "clickhouse", results := [] } "full-count" (by decide), ?_⟩
  decide
